import Mathlib

/-!
Shallow embedding of the `site_surveyor` analysis core:
`core/data_models.py`, `analysis/heatmap.py` and `analysis/ap_locator.py`.

Numbers are modelled by `ℚ` where the Python code does rational arithmetic on
its float/int data, and by `ℝ` where it takes square roots or powers
(`np.std`, `10 ** x`).  The scipy optimisation step of the locator and the
scipy interpolation step of the heatmap renderer are abstracted as oracle
parameters; everything around them is translated from the source.
-/

namespace SiteSurveyor

/-- The `metric` string argument of `HeatmapGenerator.generate`
(`'rssi' | 'snr' | 'download' | 'upload' | 'ping' | 'jitter'`); `other`
stands for any unrecognised string. -/
inductive Metric
  | rssi | snr | download | upload | ping | jitter | other
  deriving DecidableEq, Repr

/-- `IperfResults` (`core/data_models.py`): the numeric fields read by the
heatmap generator.  Bookkeeping fields (timestamps, status strings) are
omitted because no analysed code path reads them. -/
structure IperfResults where
  download_speed : ℚ := 0
  upload_speed : ℚ := 0
  latency : ℚ := 0
  jitter : ℚ := 0
  deriving DecidableEq, Repr

/-- `NetworkData` (`core/data_models.py`) after `__post_init__` has run.
`signal`, `frequency`, `channel`, `quality`, `noise` are Python ints and
`snr` a float; all are embedded in `ℚ`. -/
structure NetworkData where
  ssid : String
  bssid : String
  signal : ℚ
  frequency : ℚ
  channel : ℚ
  security : String
  vendor : String := "Unknown"
  quality : ℚ := 0
  noise : ℚ := -96
  snr : ℚ := 0
  bandwidth : String := "20MHz"
  deriving DecidableEq, Repr

/-- `NetworkData.__post_init__` (`core/data_models.py` lines 28-40): derive
`snr` and `quality` when left at their defaults, then clamp `signal` to
`[-120, -10]`, `quality` to `[0, 100]` and `snr` to `[0, 60]`. -/
def mkNetworkData (ssid bssid : String) (signal frequency channel : ℚ)
    (security vendor : String) (quality noise snr : ℚ) (bandwidth : String) :
    NetworkData :=
  let snr1 := if snr = 0 then max 0 (signal - noise) else snr
  let quality1 := if quality = 0 then max 0 (min 100 ((signal + 100) * 2)) else quality
  { ssid := ssid
    bssid := bssid
    signal := max (-120) (min (-10) signal)
    frequency := frequency
    channel := channel
    security := security
    vendor := vendor
    quality := max 0 (min 100 quality1)
    noise := noise
    snr := max 0 (min 60 snr1)
    bandwidth := bandwidth }

/-- `SurveyPoint` (`core/data_models.py`): position, detected networks and
optional iPerf results.  Timestamps, notes, ids and the derived statistics of
`calculate_metrics` are omitted: no analysed code path reads them. -/
structure SurveyPoint where
  x : ℚ
  y : ℚ
  networks : List NetworkData
  iperf_results : Option IperfResults := none
  deriving DecidableEq, Repr

/-! ## Heatmap generator (`analysis/heatmap.py`) -/

namespace Heatmap

/-- Python `max(networks, key=lambda n: n.signal)` starting from `best`:
keep the current maximum, replace only on a strictly larger key, so the
first maximal element wins. -/
def maxBySignal : NetworkData → List NetworkData → NetworkData
  | best, [] => best
  | best, n :: rest => maxBySignal (if best.signal < n.signal then n else best) rest

/-- `HeatmapGenerator._extract_metric_value` (`analysis/heatmap.py` lines
85-130).  For iPerf metrics the point is skipped when it has no
`iperf_results`; for `ping` the Python guard is
`latency if latency and latency < 999 else None`, i.e. the latency is used
exactly when it is nonzero (truthy) and below 999.  For WiFi metrics the
target network is looked up by BSSID, or the strongest network is used. -/
def _extract_metric_value (point : SurveyPoint) (target_bssid : Option String)
    (metric : Metric) : Option ℚ :=
  match metric with
  | .download => point.iperf_results.map (fun ip => ip.download_speed)
  | .upload => point.iperf_results.map (fun ip => ip.upload_speed)
  | .ping =>
    match point.iperf_results with
    | none => none
    | some ip => if ip.latency ≠ 0 ∧ ip.latency < 999 then some ip.latency else none
  | .jitter => point.iperf_results.map (fun ip => ip.jitter)
  | _ =>
    match point.networks with
    | [] => none
    | n :: rest =>
      let target : Option NetworkData :=
        match target_bssid with
        | some b => (n :: rest).find? (fun m => m.bssid == b)
        | none => some (maxBySignal n rest)
      match target with
      | none => none
      | some net =>
        match metric with
        | .rssi => some net.signal
        | .snr => some net.snr
        | _ => none

/-- The scatter-sample extraction loop of `HeatmapGenerator.generate`
(lines 64-69): one `(x, y, value)` triple per survey point whose metric
value is not `None`. -/
def scatterPoints (pts : List SurveyPoint) (target_bssid : Option String)
    (metric : Metric) : List (ℚ × ℚ × ℚ) :=
  pts.filterMap fun p =>
    (_extract_metric_value p target_bssid metric).map fun v => (p.x, p.y, v)

/-- `HeatmapGenerator._get_metric_ranges` (lines 132-167): the
`(min_val, max_val, invert_colors)` triple used to normalise the raster. -/
def _get_metric_ranges (points : List (ℚ × ℚ × ℚ)) (metric : Metric) :
    ℚ × ℚ × Bool :=
  match points.map (fun p => p.2.2) with
  | [] => (0, 1, false)
  | v :: vs =>
    let min_val := vs.foldl min v
    let max_val := vs.foldl max v
    match metric with
    | .rssi => (min (-95) (min_val - 5), max (-30) (max_val + 5), false)
    | .snr => (max 0 (min_val - 2), min 60 (max_val + 5), false)
    | .download => (0, max 100 (max_val * (12/10)), false)
    | .upload => (0, max 100 (max_val * (12/10)), false)
    | .ping => (0, min 300 (max_val * (13/10)), true)
    | .jitter => (0, min 300 (max_val * (13/10)), true)
    | .other =>
      let padding := (max_val - min_val) * (1/10)
      (min_val - padding, max_val + padding, false)

/-- An RGBA raster: `PIL.Image` restricted to what the analysed code
observes (size and pixel values). -/
structure Image where
  width : ℕ
  height : ℕ
  pixel : ℕ → ℕ → ℕ × ℕ × ℕ × ℕ

/-- `Image.new('RGBA', (width, height), (0, 0, 0, 0))`: the fully
transparent raster. -/
def transparentImage (width height : ℕ) : Image :=
  ⟨width, height, fun _ _ => (0, 0, 0, 0)⟩

/-- The range-validity guard at the top of `_generate_heatmap` (lines
175-177): `if max_val <= min_val: max_val = min_val + 1`.  The returned pair
is the range the normalisation divisor `max_val - min_val` is taken from. -/
def adjustRange (min_val max_val : ℚ) : ℚ × ℚ :=
  if max_val ≤ min_val then (min_val, min_val + 1) else (min_val, max_val)

/-- `HeatmapGenerator.generate` (lines 49-83) with the interpolation body of
`_generate_heatmap` abstracted as the `render` oracle: extract scatter
samples, return a fully transparent raster of the requested size when fewer
than 3 samples exist, otherwise determine ranges and render. -/
def generate (render : List (ℚ × ℚ × ℚ) → ℕ → ℕ → ℚ → ℚ → Metric → Image)
    (pts : List SurveyPoint) (width height : ℕ)
    (target_bssid : Option String) (metric : Metric) : Image :=
  let points := scatterPoints pts target_bssid metric
  if points.length < 3 then transparentImage width height
  else
    let r := _get_metric_ranges points metric
    render points width height r.1 r.2.1 metric

end Heatmap

/-! ## AP locator (`analysis/ap_locator.py`) -/

namespace APLocator

/-- One entry of the per-BSSID measurement lists built by
`estimate_all_aps` (lines 54-58): `{'position': (x, y), 'rssi': signal,
'frequency': freq}`. -/
structure Meas where
  position : ℚ × ℚ
  rssi : ℚ
  frequency : ℚ
  deriving DecidableEq, Repr

/-- Python `max(l)` on a list of numbers (`0` on the empty list, on which
the source never calls it). -/
def listMax : List ℚ → ℚ
  | [] => 0
  | x :: xs => xs.foldl max x

/-- Python `min(l)` on a list of numbers (`0` on the empty list, on which
the source never calls it). -/
def listMin : List ℚ → ℚ
  | [] => 0
  | x :: xs => xs.foldl min x

/-- `np.mean` over the embedded rationals (`0` on the empty list, which the
source never takes a mean of). -/
def mean (l : List ℚ) : ℚ := l.sum / l.length

/-- Population variance, the square of `np.std`. -/
def variance (l : List ℚ) : ℚ := ((l.map fun x => (x - mean l) ^ 2).sum) / l.length

/-- `np.std`: square root of the population variance. -/
noncomputable def std (l : List ℚ) : ℝ := Real.sqrt ((variance l : ℚ) : ℝ)

/-- The grouping loop of `estimate_all_aps` (lines 40-58): the measurement
list accumulated for BSSID `b`, in survey-point order and, within a point,
network order. -/
def gatherMeasurements (pts : List SurveyPoint) (b : String) : List Meas :=
  pts.flatMap fun p =>
    (p.networks.filter fun n => n.bssid == b).map fun n =>
      ⟨(p.x, p.y), n.signal, n.frequency⟩

/-- The `ssid` recorded for BSSID `b` when its entry is created (line 50):
the SSID of the first network with that BSSID encountered in the scan. -/
def ssidFor (pts : List SurveyPoint) (b : String) : String :=
  match (pts.flatMap fun p => p.networks).find? (fun n => n.bssid == b) with
  | some n => n.ssid
  | none => ""

open Classical in
/-- The outlier filter of `estimate_ap_position` (lines 109-122): when the
signal standard deviation exceeds 15, keep the measurements within 2
standard deviations of the mean, but only if at least 3 survive. -/
noncomputable def filterMeasurements (ms : List Meas) : List Meas :=
  let rssi_values := ms.map fun m => m.rssi
  let rssi_mean := mean rssi_values
  let rssi_std := std rssi_values
  if 15 < rssi_std then
    let filtered := ms.filter fun m => |((m.rssi : ℝ)) - (rssi_mean : ℝ)| ≤ 2 * rssi_std
    if 3 ≤ filtered.length then filtered else ms
  else ms

/-- Model parameters set in `APLocator.__init__` (lines 25-29) and never
reassigned elsewhere in the repository. -/
noncomputable def path_loss_exponent : ℝ := 5/2

/-- Reference RSSI at the reference distance (`-40` dBm at 1 m). -/
def reference_rssi : ℚ := -40

/-- Reference distance of the path-loss model (1 meter). -/
noncomputable def reference_distance : ℝ := 1

/-- `APLocator._rssi_to_distance_meters` (lines 204-216): at or above the
reference RSSI return the reference distance; otherwise invert the log-
distance path-loss model and clamp the result to `[0.5, 150]` meters. -/
noncomputable def _rssi_to_distance_meters (rssi : ℚ) : ℝ :=
  if reference_rssi ≤ rssi then reference_distance
  else
    let rssi_diff : ℚ := reference_rssi - rssi
    let distance := reference_distance * (10 : ℝ) ^ (((rssi_diff : ℝ)) / (10 * path_loss_exponent))
    min (max distance (1/2)) 150

/-- Factor 1 of `_calculate_confidence` (line 250): measurement count
against a saturation target of 8. -/
noncomputable def count_factor (ms : List Meas) : ℝ := min 1 ((ms.length : ℝ) / 8)

/-- Factor 2 of `_calculate_confidence` (lines 253-255): RSSI consistency. -/
noncomputable def consistency_factor (ms : List Meas) : ℝ :=
  max 0 (1 - std (ms.map fun m => m.rssi) / 25)

/-- Factor 3 of `_calculate_confidence` (lines 258-270): spatial dispersion
of the measurement positions, or the fixed neutral value 0.5 when fewer
than 4 positions exist. -/
noncomputable def spatial_factor (pixels_per_meter : ℚ) (ms : List Meas) : ℝ :=
  if 4 ≤ ms.length then
    let x_coords := ms.map fun m => m.position.1
    let y_coords := ms.map fun m => m.position.2
    let x_spread := listMax x_coords - listMin x_coords
    let y_spread := listMax y_coords - listMin y_coords
    let spread_meters := ((x_spread + y_spread) / 2) / pixels_per_meter
    min 1 ((spread_meters : ℝ) / 20)
  else 1/2

/-- Factor 4 of `_calculate_confidence` (lines 273-274): average signal
quality rescaled from `[-100, -60]` dBm. -/
noncomputable def signal_factor (ms : List Meas) : ℝ :=
  max 0 (min 1 ((((mean (ms.map fun m => m.rssi) : ℚ) : ℝ) + 100) / 40))

/-- `APLocator._calculate_confidence` (lines 244-284) with
`pixels_per_meter` passed explicitly: 0 below 3 measurements, otherwise the
clamped weighted sum of the count, consistency, spatial-spread and
signal-quality factors. -/
noncomputable def _calculate_confidence (pixels_per_meter : ℚ) (ms : List Meas) : ℝ :=
  if ms.length < 3 then 0
  else
    max 0 (min 1 (count_factor ms * (3/10) + consistency_factor ms * (3/10) +
      spatial_factor pixels_per_meter ms * (2/10) + signal_factor ms * (2/10)))

/-- `APPosition` (`analysis/ap_locator.py` lines 7-20); the `estimated_x` /
`estimated_y` aliases duplicate `x` / `y` and are omitted. -/
structure APPosition where
  bssid : String
  ssid : String
  x : ℝ
  y : ℝ
  confidence : ℝ
  measurement_count : ℕ
  avg_rssi : ℝ
  status : String

/-- `APLocator.estimate_ap_position` (lines 104-202) with the
multi-restart scipy optimisation and validation (lines 124-202) abstracted
as the `solve` oracle; `.error` stands for a raised exception.  Below 3
measurements the method returns `None` without solving; otherwise the
oracle runs on the outlier-filtered measurement list. -/
noncomputable def estimate_ap_position
    (solve : List Meas → Except Unit (Option (ℝ × ℝ))) (ms : List Meas) :
    Except Unit (Option (ℝ × ℝ)) :=
  if ms.length < 3 then .ok none
  else solve (filterMeasurements ms)

/-- `APLocator.estimate_all_aps` (lines 31-102) as the map it returns, with
the per-BSSID solver abstracted as `solve`: empty survey or zero
calibration give the empty map; a BSSID is a key exactly when it was
observed, survived the minimum-measurement check, and its solve succeeded
(exceptions are caught per emitter and skip only that emitter). -/
noncomputable def estimate_all_aps
    (solve : String → List Meas → Except Unit (Option (ℝ × ℝ)))
    (pixels_per_meter : ℚ) (pts : List SurveyPoint) :
    String → Option APPosition :=
  fun b =>
    if pts = [] ∨ pixels_per_meter = 0 then none
    else if gatherMeasurements pts b = [] then none
    else if (gatherMeasurements pts b).length < 3 then none
    else
      match estimate_ap_position (solve b) (gatherMeasurements pts b) with
      | .error _ => none
      | .ok none => none
      | .ok (some (x, y)) =>
        some { bssid := b
               ssid := ssidFor pts b
               x := x
               y := y
               confidence := _calculate_confidence pixels_per_meter (gatherMeasurements pts b)
               measurement_count := (gatherMeasurements pts b).length
               avg_rssi := ((mean ((gatherMeasurements pts b).map fun m => m.rssi) : ℚ) : ℝ)
               status := "estimated" }

end APLocator

/-! ## Concrete inputs used in counterexamples and witnesses -/

namespace Ex

open Heatmap APLocator

/-- Three ping scatter samples of latency 400 ms (a latency the `ping`
extractor accepts, since `0 < 400 < 999`). -/
def pingHigh : List (ℚ × ℚ × ℚ) := [(0, 0, 400), (1, 1, 400), (2, 2, 400)]

/-- Three ping scatter samples of identical latency 0.5 ms. -/
def pingNarrow : List (ℚ × ℚ × ℚ) := [(0, 0, 1/2), (1, 0, 1/2), (0, 1, 1/2)]

/-- Three RSSI scatter samples. -/
def rssiPts : List (ℚ × ℚ × ℚ) := [(0, 0, -50), (1, 1, -60), (2, 2, -70)]

/-- A survey point carrying iPerf results with a negative latency. -/
def ptNegLatency : SurveyPoint :=
  { x := 0, y := 0, networks := [], iperf_results := some { latency := -1 } }

/-- A network of BSSID `aa` at the given signal level. -/
def exNet (sig : ℚ) : NetworkData :=
  { ssid := "AP", bssid := "aa", signal := sig, frequency := 2400, channel := 6,
    security := "WPA2", quality := 50, noise := -96, snr := 30 }

/-- A survey point at `(c, c)` observing `aa` at signal level `sig`. -/
def exPt (c sig : ℚ) : SurveyPoint := { x := c, y := c, networks := [exNet sig] }

/-- Ten survey points along the diagonal: nine at signal -50 and a tenth
outlier at -120 (signal stddev 21 > 15, so the locator's outlier filter
fires and drops the tenth measurement). -/
def ptsA : List SurveyPoint :=
  [exPt 0 (-50), exPt 10 (-50), exPt 20 (-50), exPt 30 (-50), exPt 40 (-50),
   exPt 50 (-50), exPt 60 (-50), exPt 70 (-50), exPt 80 (-50), exPt 90 (-120)]

/-- The measurement list `estimate_all_aps` gathers from `ptsA` for `aa`. -/
def msA : List Meas :=
  [⟨(0, 0), -50, 2400⟩, ⟨(10, 10), -50, 2400⟩, ⟨(20, 20), -50, 2400⟩,
   ⟨(30, 30), -50, 2400⟩, ⟨(40, 40), -50, 2400⟩, ⟨(50, 50), -50, 2400⟩,
   ⟨(60, 60), -50, 2400⟩, ⟨(70, 70), -50, 2400⟩, ⟨(80, 80), -50, 2400⟩,
   ⟨(90, 90), -120, 2400⟩]

/-- `msA` with the outlier removed: what the 2-standard-deviation filter
keeps. -/
def msAKept : List Meas :=
  [⟨(0, 0), -50, 2400⟩, ⟨(10, 10), -50, 2400⟩, ⟨(20, 20), -50, 2400⟩,
   ⟨(30, 30), -50, 2400⟩, ⟨(40, 40), -50, 2400⟩, ⟨(50, 50), -50, 2400⟩,
   ⟨(60, 60), -50, 2400⟩, ⟨(70, 70), -50, 2400⟩, ⟨(80, 80), -50, 2400⟩]

/-- A solver oracle that always succeeds at the origin. -/
def solveA : String → List Meas → Except Unit (Option (ℝ × ℝ)) :=
  fun _ _ => .ok (some (0, 0))

/-- The estimate `estimate_all_aps solveA 10 ptsA` produces for `aa`. -/
noncomputable def apA : APLocator.APPosition :=
  { bssid := "aa", ssid := "AP", x := 0, y := 0, confidence := 319/500,
    measurement_count := 10, avg_rssi := -57, status := "estimated" }

/-- Three well-behaved measurements (used by witnesses). -/
def msW : List Meas :=
  [⟨(0, 0), -50, 2400⟩, ⟨(1, 1), -55, 2400⟩, ⟨(2, 2), -60, 2400⟩]

/-- Two measurements: below the minimum of 3. -/
def msTwo : List Meas := [⟨(0, 0), -50, 2400⟩, ⟨(1, 1), -55, 2400⟩]

/-- A survey point whose iPerf latency is the 999+ timeout sentinel. -/
def ptHighLatency : SurveyPoint :=
  { x := 0, y := 0, networks := [], iperf_results := some { latency := 1000 } }

/-- The RSSI values of `msA`. -/
def rssisA : List ℚ := [-50, -50, -50, -50, -50, -50, -50, -50, -50, -120]

/-- The RSSI values of `msAKept`. -/
def rssisKept : List ℚ := [-50, -50, -50, -50, -50, -50, -50, -50, -50]

end Ex

/-! ## Helper lemmas -/

open Heatmap APLocator Ex

lemma foldl_min_le_init (l : List ℚ) (v : ℚ) : l.foldl min v ≤ v := by
  induction l generalizing v with
  | nil => exact le_refl v
  | cons a t ih => exact le_trans (ih (min v a)) (min_le_left v a)

lemma le_foldl_min (l : List ℚ) (v c : ℚ) (hc : c ≤ v) (h : ∀ x ∈ l, c ≤ x) :
    c ≤ l.foldl min v := by
  induction l generalizing v with
  | nil => exact hc
  | cons a t ih =>
    exact ih (min v a) (le_min hc (h a (List.mem_cons_self a t)))
      fun x hx => h x (List.mem_cons_of_mem a hx)

lemma init_le_foldl_max (l : List ℚ) (v : ℚ) : v ≤ l.foldl max v := by
  induction l generalizing v with
  | nil => exact le_refl v
  | cons a t ih => exact le_trans (le_max_left v a) (ih (max v a))

lemma foldl_max_le (l : List ℚ) (v c : ℚ) (hc : v ≤ c) (h : ∀ x ∈ l, x ≤ c) :
    l.foldl max v ≤ c := by
  induction l generalizing v with
  | nil => exact hc
  | cons a t ih =>
    exact ih (max v a) (max_le hc (h a (List.mem_cons_self a t)))
      fun x hx => h x (List.mem_cons_of_mem a hx)

lemma scatterPoints_length_filter (pts : List SurveyPoint) (t : Option String)
    (metric : Metric) :
    (scatterPoints pts t metric).length =
      (pts.filter fun q => (_extract_metric_value q t metric).isSome).length := by
  induction pts with
  | nil => rfl
  | cons p rest ih =>
    simp only [scatterPoints, List.filterMap_cons, List.filter_cons] at ih ⊢
    cases h : _extract_metric_value p t metric <;>
      simp [h, ih]

/-! ## C4: fewer than 3 measurements produce no estimate -/

/-- C4: an emitter observed in fewer than 3 measurements yields no position
estimate: `estimate_all_aps` omits it from the returned mapping, and
`estimate_ap_position` returns `None` (without consulting the solver) when
given fewer than 3 measurements. -/
theorem C4_insufficient_measurements_skipped :
    (∀ (solve : String → List Meas → Except Unit (Option (ℝ × ℝ)))
        (ppm : ℚ) (pts : List SurveyPoint) (b : String),
      (gatherMeasurements pts b).length < 3 →
      estimate_all_aps solve ppm pts b = none) ∧
    (∀ (solve : List Meas → Except Unit (Option (ℝ × ℝ))) (ms : List Meas),
      ms.length < 3 → estimate_ap_position solve ms = .ok none) := by
  constructor
  · intro solve ppm pts b hlt
    simp only [estimate_all_aps]
    split_ifs with h1 h2
    · rfl
    · rfl
    · rfl
  · intro solve ms hlt
    simp only [estimate_ap_position, if_pos hlt]

/-- C4 witness: a concrete emitter with 2 measurements is absent from the
result, and `estimate_ap_position` returns `None` on a 2-element list. -/
theorem C4_insufficient_measurements_skipped_witness :
    estimate_all_aps solveA 10 [exPt 0 (-50), exPt 1 (-55)] "aa" = none ∧
    estimate_ap_position (solveA "aa") msTwo = .ok none := by
  constructor
  · exact C4_insufficient_measurements_skipped.1 solveA 10 _ "aa" (by decide)
  · exact C4_insufficient_measurements_skipped.2 (solveA "aa") msTwo (by decide)

/-! ## C5: fewer than 3 usable samples give a transparent raster -/

/-- C5: when fewer than 3 survey points yield a usable metric value,
`generate` returns a raster of exactly the requested width and height whose
pixels are all fully transparent `(0, 0, 0, 0)`, for every interpolation
backend. -/
theorem C5_insufficient_points_transparent
    (render : List (ℚ × ℚ × ℚ) → ℕ → ℕ → ℚ → ℚ → Metric → Image)
    (pts : List SurveyPoint) (width height : ℕ)
    (target_bssid : Option String) (metric : Metric)
    (hlt : (scatterPoints pts target_bssid metric).length < 3) :
    (generate render pts width height target_bssid metric).width = width ∧
    (generate render pts width height target_bssid metric).height = height ∧
    ∀ i j, (generate render pts width height target_bssid metric).pixel i j =
      (0, 0, 0, 0) := by
  simp only [generate, if_pos hlt]
  exact ⟨rfl, rfl, fun i j => rfl⟩

/-- C5 witness: a single ping sample (latency 400) is below the 3-sample
minimum, so a 5×7 request comes back 5×7 and fully transparent. -/
theorem C5_insufficient_points_transparent_witness :
    (scatterPoints [exPt 0 (-50)] none .ping).length < 3 ∧
    (generate (fun _ _ _ _ _ _ => transparentImage 1 1) [exPt 0 (-50)] 5 7 none .ping).width = 5 ∧
    (generate (fun _ _ _ _ _ _ => transparentImage 1 1) [exPt 0 (-50)] 5 7 none .ping).pixel 2 3 =
      (0, 0, 0, 0) := by
  refine ⟨by decide, ?_, ?_⟩
  · exact (C5_insufficient_points_transparent _ _ 5 7 none .ping (by decide)).1
  · exact (C5_insufficient_points_transparent _ _ 5 7 none .ping (by decide)).2.2 2 3

/-! ## C7: degenerate ranges are widened; the divisor is never zero -/

/-- C7 (amended): the guard in `_generate_heatmap` raises `max_val` to
`min_val + 1` exactly when the incoming range is degenerate
(`max_val ≤ min_val`), so the normalization divisor is always strictly
positive — in particular for the range computed from at least 3 all-equal
samples.  (The adjusted gap is not always at least 1 unit: a non-degenerate
narrow range is left untouched.) -/
theorem C7_degenerate_range_widened :
    (∀ min_val max_val : ℚ,
      (adjustRange min_val max_val).1 < (adjustRange min_val max_val).2 ∧
      (max_val ≤ min_val → (adjustRange min_val max_val).2 = min_val + 1)) ∧
    (∀ (points : List (ℚ × ℚ × ℚ)) (metric : Metric),
      (adjustRange (_get_metric_ranges points metric).1
          (_get_metric_ranges points metric).2.1).1 <
        (adjustRange (_get_metric_ranges points metric).1
          (_get_metric_ranges points metric).2.1).2) := by
  have key : ∀ min_val max_val : ℚ,
      (adjustRange min_val max_val).1 < (adjustRange min_val max_val).2 ∧
      (max_val ≤ min_val → (adjustRange min_val max_val).2 = min_val + 1) := by
    intro min_val max_val
    unfold adjustRange
    split_ifs with h
    · exact ⟨by norm_num, fun _ => rfl⟩
    · exact ⟨lt_of_not_le h, fun hc => absurd hc h⟩
  exact ⟨key, fun points metric => (key _ _).1⟩

/-- C7 counterexample: three ping samples all of latency 0.5 ms give the
range `(0, 0.65)`; it is not degenerate, so the guard leaves it unchanged
and the adjusted `max_val` does NOT exceed `min_val` by at least 1 unit. -/
theorem C7_degenerate_range_widened_counterexample :
    _get_metric_ranges pingNarrow .ping = (0, 13/20, true) ∧
    adjustRange 0 (13/20) = (0, 13/20) ∧
    ¬(1 ≤ (13/20 : ℚ) - 0) := by
  refine ⟨?_, ?_, by norm_num⟩
  · simp only [_get_metric_ranges, pingNarrow, List.map_cons, List.map_nil,
      List.foldl_cons, List.foldl_nil, max_self]
    norm_num [min_eq_right]
  · simp only [adjustRange]
    rw [if_neg (by norm_num)]

/-- C7 witness: a degenerate range (`max_val = min_val = 0`) really is
widened by exactly 1 unit, and a concrete snr range gives a positive
divisor. -/
theorem C7_degenerate_range_widened_witness :
    (adjustRange 0 0).1 < (adjustRange 0 0).2 ∧
    ((0:ℚ) ≤ 0 → (adjustRange 0 0).2 = 0 + 1) ∧
    (adjustRange (_get_metric_ranges [(0,0,5),(1,1,5),(2,2,5)] .snr).1
        (_get_metric_ranges [(0,0,5),(1,1,5),(2,2,5)] .snr).2.1).1 <
      (adjustRange (_get_metric_ranges [(0,0,5),(1,1,5),(2,2,5)] .snr).1
        (_get_metric_ranges [(0,0,5),(1,1,5),(2,2,5)] .snr).2.1).2 := by
  refine ⟨(C7_degenerate_range_widened.1 0 0).1, ?_, ?_⟩
  · exact fun h => (C7_degenerate_range_widened.1 0 0).2 h
  · exact C7_degenerate_range_widened.2 [(0,0,5),(1,1,5),(2,2,5)] .snr

/-! ## C8: per-emitter failures are isolated -/

/-- C8: per-emitter failures are isolated and non-fatal.  If two solver
oracles agree on every emitter except `e` (where one may fail arbitrarily,
by returning no position or raising), the returned mapping is unchanged at
every other emitter; a failing emitter itself simply gets no entry; and an
empty survey yields the empty mapping rather than an error. -/
theorem C8_failures_isolated :
    (∀ (solve1 solve2 : String → List Meas → Except Unit (Option (ℝ × ℝ)))
        (ppm : ℚ) (pts : List SurveyPoint) (e : String),
      (∀ b, b ≠ e → solve1 b = solve2 b) →
      ∀ b, b ≠ e →
        estimate_all_aps solve1 ppm pts b = estimate_all_aps solve2 ppm pts b) ∧
    (∀ (solve : String → List Meas → Except Unit (Option (ℝ × ℝ)))
        (ppm : ℚ) (pts : List SurveyPoint) (e : String),
      (estimate_ap_position (solve e) (gatherMeasurements pts e) = .error () ∨
        estimate_ap_position (solve e) (gatherMeasurements pts e) = .ok none) →
      estimate_all_aps solve ppm pts e = none) ∧
    (∀ (solve : String → List Meas → Except Unit (Option (ℝ × ℝ)))
        (ppm : ℚ) (b : String),
      estimate_all_aps solve ppm [] b = none) := by
  refine ⟨?_, ?_, ?_⟩
  · intro solve1 solve2 ppm pts e hagree b hb
    simp only [estimate_all_aps, hagree b hb]
  · intro solve ppm pts e hfail
    simp only [estimate_all_aps]
    split_ifs with h1 h2 h3
    · rfl
    · rfl
    · rfl
    · rcases hfail with hf | hf <;> rw [hf]
  · intro solve ppm b
    simp [estimate_all_aps]

/-- C8 witness: concrete instantiation — a solver failing on emitter `bb`
leaves the `aa` entry unchanged, the failing emitter gets no entry, and the
empty survey maps every BSSID to `none`. -/
theorem C8_failures_isolated_witness :
    estimate_all_aps (fun b ms => if b = "bb" then .error () else solveA b ms) 10 ptsA "aa" =
      estimate_all_aps solveA 10 ptsA "aa" ∧
    estimate_all_aps (fun _ _ => .error ()) 10 ptsA "aa" = none ∧
    estimate_all_aps solveA 10 [] "aa" = none := by
  refine ⟨?_, ?_, ?_⟩
  · refine C8_failures_isolated.1 _ solveA 10 ptsA "bb" ?_ "aa" (by decide)
    intro b hb
    simp [hb]
  · refine C8_failures_isolated.2.1 _ 10 ptsA "aa" ?_
    left
    simp only [estimate_ap_position]
    rw [if_neg (by decide)]
  · exact C8_failures_isolated.2.2 solveA 10 "aa"

/-! ## C9: NetworkData construction clamps its fields -/

/-- C9: every `NetworkData` produced by construction satisfies
`signal ∈ [-120, -10]`, `quality ∈ [0, 100]` and `snr ∈ [0, 60]`;
out-of-range inputs are clamped rather than rejected, and when `snr` is
left at its default 0 it is derived from `max 0 (signal - noise)` (then
clamped into `[0, 60]` like any other value). -/
theorem C9_network_data_invariant (ssid bssid : String)
    (signal frequency channel : ℚ) (security vendor : String)
    (quality noise snr : ℚ) (bandwidth : String) :
    (-120 ≤ (mkNetworkData ssid bssid signal frequency channel security vendor
        quality noise snr bandwidth).signal ∧
      (mkNetworkData ssid bssid signal frequency channel security vendor
        quality noise snr bandwidth).signal ≤ -10) ∧
    (0 ≤ (mkNetworkData ssid bssid signal frequency channel security vendor
        quality noise snr bandwidth).quality ∧
      (mkNetworkData ssid bssid signal frequency channel security vendor
        quality noise snr bandwidth).quality ≤ 100) ∧
    (0 ≤ (mkNetworkData ssid bssid signal frequency channel security vendor
        quality noise snr bandwidth).snr ∧
      (mkNetworkData ssid bssid signal frequency channel security vendor
        quality noise snr bandwidth).snr ≤ 60) ∧
    (snr = 0 → (mkNetworkData ssid bssid signal frequency channel security vendor
        quality noise snr bandwidth).snr = min 60 (max 0 (signal - noise))) := by
  simp only [mkNetworkData]
  refine ⟨⟨le_max_left _ _, max_le (by norm_num) (min_le_left _ _)⟩,
    ⟨le_max_left _ _, max_le (by norm_num) (min_le_left _ _)⟩,
    ⟨le_max_left _ _, max_le (by norm_num) (min_le_left _ _)⟩, ?_⟩
  intro h
  rw [if_pos h]
  exact max_eq_right (le_min (by norm_num) (le_max_left _ _))

/-- C9 witness: a raw reading with out-of-range signal 5, default quality
and default snr is clamped into the invariant ranges. -/
theorem C9_network_data_invariant_witness :
    (-120 ≤ (mkNetworkData "n" "b" 5 2400 6 "s" "v" 0 (-96) 0 "20MHz").signal ∧
      (mkNetworkData "n" "b" 5 2400 6 "s" "v" 0 (-96) 0 "20MHz").signal ≤ -10) ∧
    ((0:ℚ) = 0 →
      (mkNetworkData "n" "b" 5 2400 6 "s" "v" 0 (-96) 0 "20MHz").snr =
        min 60 (max 0 (5 - (-96)))) := by
  refine ⟨(C9_network_data_invariant "n" "b" 5 2400 6 "s" "v" 0 (-96) 0 "20MHz").1, ?_⟩
  intro h
  exact (C9_network_data_invariant "n" "b" 5 2400 6 "s" "v" 0 (-96) 0 "20MHz").2.2.2 h

/-! ## C10: which survey points contribute ping samples -/

/-- C10 (amended): for the `ping` metric a survey point contributes a
scatter sample iff it carries iPerf results whose latency is NONZERO and
strictly below 999 (the Python truthiness test `if latency` excludes only
latency 0, so a negative latency is used); points with latency 0 or ≥ 999,
or without iPerf results, are excluded, and only contributing points count
toward the fewer-than-3-samples transparent-raster case. -/
theorem C10_ping_contribution (p : SurveyPoint) (t : Option String) :
    (∀ v : ℚ, _extract_metric_value p t .ping = some v ↔
      ∃ ip, p.iperf_results = some ip ∧ ip.latency = v ∧ v ≠ 0 ∧ v < 999) ∧
    (∀ ip, p.iperf_results = some ip → ip.latency = 0 ∨ 999 ≤ ip.latency →
      _extract_metric_value p t .ping = none) ∧
    (p.iperf_results = none → _extract_metric_value p t .ping = none) ∧
    (∀ pts : List SurveyPoint, (scatterPoints pts t .ping).length =
      (pts.filter fun q => (_extract_metric_value q t .ping).isSome).length) := by
  refine ⟨?_, ?_, ?_, fun pts => scatterPoints_length_filter pts t .ping⟩
  · intro v
    cases hip : p.iperf_results with
    | none => simp [_extract_metric_value, hip]
    | some ip =>
      simp only [_extract_metric_value, hip]
      constructor
      · intro hv
        by_cases hc : ip.latency ≠ 0 ∧ ip.latency < 999
        · rw [if_pos hc] at hv
          obtain rfl : ip.latency = v := Option.some_injective _ hv
          exact ⟨ip, rfl, rfl, hc.1, hc.2⟩
        · rw [if_neg hc] at hv
          exact absurd hv (by simp)
      · rintro ⟨ip2, hip2, hlat, hne, hlt⟩
        obtain rfl : ip = ip2 := Option.some_injective _ hip2.symm ▸ rfl
        rw [if_pos ⟨hlat ▸ hne, hlat ▸ hlt⟩, hlat]
  · intro ip hip hbad
    simp only [_extract_metric_value, hip]
    rw [if_neg]
    rcases hbad with hb | hb
    · exact fun hc => hc.1 hb
    · exact fun hc => absurd hc.2 (not_lt.mpr hb)
  · intro hip
    simp [_extract_metric_value, hip]

/-- C10 counterexample to the claim as stated: a survey point with iPerf
latency −1 DOES contribute a ping sample (value −1), although −1 is not
strictly greater than 0. -/
theorem C10_ping_contribution_counterexample :
    _extract_metric_value ptNegLatency none .ping = some (-1) ∧
    ¬(0 < (-1 : ℚ)) := by
  exact ⟨by decide, by norm_num⟩

/-- C10 witness: a latency-1000 point is excluded. -/
theorem C10_ping_contribution_witness :
    _extract_metric_value ptHighLatency none .ping = none := by
  exact (C10_ping_contribution ptHighLatency none).2.1 { latency := 1000 } rfl
    (Or.inr (by norm_num))

/-! ## C1: the declared value range contains the observed min/max -/

/-- C1 (amended): for a nonempty scatter-sample list, the
`(min_val, max_val)` pair of `_get_metric_ranges` contains the observed
minimum and maximum of the sample values, PROVIDED the values lie inside
the metric's legend bounds (`[0, 60]` for snr, `[0, 300]` for ping/jitter,
nonnegative for download/upload); `rssi` and the dynamic default need no
such restriction.  (Without the restriction the claim fails: ping latencies
above 300 ms exceed the capped `max_val`.) -/
theorem C1_range_contains_min_max (points : List (ℚ × ℚ × ℚ)) (metric : Metric)
    (hne : points ≠ [])
    (hsnr : metric = .snr → ∀ p ∈ points, 0 ≤ p.2.2 ∧ p.2.2 ≤ 60)
    (hpj : metric = .ping ∨ metric = .jitter → ∀ p ∈ points, 0 ≤ p.2.2 ∧ p.2.2 ≤ 300)
    (hdu : metric = .download ∨ metric = .upload → ∀ p ∈ points, 0 ≤ p.2.2) :
    (_get_metric_ranges points metric).1 ≤ listMin (points.map fun p => p.2.2) ∧
    listMax (points.map fun p => p.2.2) ≤ (_get_metric_ranges points metric).2.1 := by
  cases hv : points.map (fun p => p.2.2) with
  | nil => exact absurd (List.map_eq_nil_iff.mp hv) hne
  | cons v vs =>
    have hmem : ∀ x ∈ v :: vs, ∃ p ∈ points, p.2.2 = x := by
      intro x hx
      rw [← hv] at hx
      obtain ⟨p, hp, rfl⟩ := List.mem_map.mp hx
      exact ⟨p, hp, rfl⟩
    simp only [_get_metric_ranges, hv, listMin, listMax]
    cases metric with
    | rssi =>
      constructor
      · exact le_trans (min_le_right _ _) (by linarith [foldl_min_le_init vs v])
      · exact le_trans (by linarith [init_le_foldl_max vs v]) (le_max_right (-30) _)
    | snr =>
      have h0 : (0:ℚ) ≤ vs.foldl min v := by
        refine le_foldl_min vs v 0 ?_ ?_
        · obtain ⟨p, hp, he⟩ := hmem v (List.mem_cons_self v vs)
          exact he ▸ (hsnr rfl p hp).1
        · intro x hx
          obtain ⟨p, hp, he⟩ := hmem x (List.mem_cons_of_mem v hx)
          exact he ▸ (hsnr rfl p hp).1
      have h60 : vs.foldl max v ≤ 60 := by
        refine foldl_max_le vs v 60 ?_ ?_
        · obtain ⟨p, hp, he⟩ := hmem v (List.mem_cons_self v vs)
          exact he ▸ (hsnr rfl p hp).2
        · intro x hx
          obtain ⟨p, hp, he⟩ := hmem x (List.mem_cons_of_mem v hx)
          exact he ▸ (hsnr rfl p hp).2
      exact ⟨max_le h0 (by norm_num), le_min h60 (by norm_num)⟩
    | download =>
      have h0 : (0:ℚ) ≤ vs.foldl min v := by
        refine le_foldl_min vs v 0 ?_ ?_
        · obtain ⟨p, hp, he⟩ := hmem v (List.mem_cons_self v vs)
          exact he ▸ hdu (Or.inl rfl) p hp
        · intro x hx
          obtain ⟨p, hp, he⟩ := hmem x (List.mem_cons_of_mem v hx)
          exact he ▸ hdu (Or.inl rfl) p hp
      refine ⟨h0, ?_⟩
      rcases le_total (vs.foldl max v) 100 with hc | hc
      · exact le_trans hc (le_max_left _ _)
      · exact le_trans (by linarith) (le_max_right (100:ℚ) _)
    | upload =>
      have h0 : (0:ℚ) ≤ vs.foldl min v := by
        refine le_foldl_min vs v 0 ?_ ?_
        · obtain ⟨p, hp, he⟩ := hmem v (List.mem_cons_self v vs)
          exact he ▸ hdu (Or.inr rfl) p hp
        · intro x hx
          obtain ⟨p, hp, he⟩ := hmem x (List.mem_cons_of_mem v hx)
          exact he ▸ hdu (Or.inr rfl) p hp
      refine ⟨h0, ?_⟩
      rcases le_total (vs.foldl max v) 100 with hc | hc
      · exact le_trans hc (le_max_left _ _)
      · exact le_trans (by linarith) (le_max_right (100:ℚ) _)
    | ping =>
      have h0 : (0:ℚ) ≤ vs.foldl min v := by
        refine le_foldl_min vs v 0 ?_ ?_
        · obtain ⟨p, hp, he⟩ := hmem v (List.mem_cons_self v vs)
          exact he ▸ (hpj (Or.inl rfl) p hp).1
        · intro x hx
          obtain ⟨p, hp, he⟩ := hmem x (List.mem_cons_of_mem v hx)
          exact he ▸ (hpj (Or.inl rfl) p hp).1
      have h300 : vs.foldl max v ≤ 300 := by
        refine foldl_max_le vs v 300 ?_ ?_
        · obtain ⟨p, hp, he⟩ := hmem v (List.mem_cons_self v vs)
          exact he ▸ (hpj (Or.inl rfl) p hp).2
        · intro x hx
          obtain ⟨p, hp, he⟩ := hmem x (List.mem_cons_of_mem v hx)
          exact he ▸ (hpj (Or.inl rfl) p hp).2
      have hmy : (0:ℚ) ≤ vs.foldl max v := le_trans h0 (le_trans (foldl_min_le_init vs v) (init_le_foldl_max vs v))
      exact ⟨h0, le_min h300 (by linarith)⟩
    | jitter =>
      have h0 : (0:ℚ) ≤ vs.foldl min v := by
        refine le_foldl_min vs v 0 ?_ ?_
        · obtain ⟨p, hp, he⟩ := hmem v (List.mem_cons_self v vs)
          exact he ▸ (hpj (Or.inr rfl) p hp).1
        · intro x hx
          obtain ⟨p, hp, he⟩ := hmem x (List.mem_cons_of_mem v hx)
          exact he ▸ (hpj (Or.inr rfl) p hp).1
      have h300 : vs.foldl max v ≤ 300 := by
        refine foldl_max_le vs v 300 ?_ ?_
        · obtain ⟨p, hp, he⟩ := hmem v (List.mem_cons_self v vs)
          exact he ▸ (hpj (Or.inr rfl) p hp).2
        · intro x hx
          obtain ⟨p, hp, he⟩ := hmem x (List.mem_cons_of_mem v hx)
          exact he ▸ (hpj (Or.inr rfl) p hp).2
      have hmy : (0:ℚ) ≤ vs.foldl max v := le_trans h0 (le_trans (foldl_min_le_init vs v) (init_le_foldl_max vs v))
      exact ⟨h0, le_min h300 (by linarith)⟩
    | other =>
      have hmm : vs.foldl min v ≤ vs.foldl max v :=
        le_trans (foldl_min_le_init vs v) (init_le_foldl_max vs v)
      exact ⟨by linarith, by linarith⟩

/-- C1 counterexample to the claim as stated: three ping samples of latency
400 ms (all accepted by the extractor, since `0 < 400 < 999`) get
`max_val = 300 < 400 = max(values)`. -/
theorem C1_range_contains_min_max_counterexample :
    _get_metric_ranges pingHigh .ping = (0, 300, true) ∧
    listMax (pingHigh.map fun p => p.2.2) = 400 ∧
    ¬((400 : ℚ) ≤ 300) := by
  refine ⟨?_, ?_, by norm_num⟩
  · simp only [_get_metric_ranges, pingHigh, List.map_cons, List.map_nil,
      List.foldl_cons, List.foldl_nil, max_self]
    norm_num [min_eq_left]
  · simp [listMax, pingHigh, List.foldl_cons, List.foldl_nil]

/-- C1 witness: three rssi samples, all hypotheses discharged, range
contains the observed extremes. -/
theorem C1_range_contains_min_max_witness :
    rssiPts ≠ [] ∧
    (_get_metric_ranges rssiPts .rssi).1 ≤ listMin (rssiPts.map fun p => p.2.2) ∧
    listMax (rssiPts.map fun p => p.2.2) ≤ (_get_metric_ranges rssiPts .rssi).2.1 := by
  have h := C1_range_contains_min_max rssiPts .rssi (by simp [rssiPts])
    (by rintro h; cases h) (by rintro (h | h) <;> cases h)
    (by rintro (h | h) <;> cases h)
  exact ⟨by simp [rssiPts], h.1, h.2⟩

/-! ## C3: the confidence formula and its bounds -/

/-- C3: for every measurement list the confidence lies in `[0, 1]`; with at
least 3 measurements it equals the weighted sum
`0.3*count + 0.3*consistency + 0.2*spatial + 0.2*signal` clamped to
`[0, 1]`; with fewer than 3 it is 0; and with fewer than 4 positions the
spatial factor is the fixed neutral 0.5. -/
theorem C3_confidence_formula (ppm : ℚ) (ms : List Meas) :
    (0 ≤ _calculate_confidence ppm ms ∧ _calculate_confidence ppm ms ≤ 1) ∧
    (3 ≤ ms.length →
      _calculate_confidence ppm ms =
        max 0 (min 1 ((3/10) * count_factor ms + (3/10) * consistency_factor ms +
          (2/10) * spatial_factor ppm ms + (2/10) * signal_factor ms))) ∧
    (ms.length < 3 → _calculate_confidence ppm ms = 0) ∧
    (ms.length < 4 → spatial_factor ppm ms = 1/2) := by
  refine ⟨?_, ?_, ?_, ?_⟩
  · unfold _calculate_confidence
    split_ifs with h
    · norm_num
    · exact ⟨le_max_left _ _, max_le (by norm_num) (min_le_left _ _)⟩
  · intro h
    unfold _calculate_confidence
    rw [if_neg (not_lt.mpr h)]
    ring_nf
  · intro h
    unfold _calculate_confidence
    rw [if_pos h]
  · intro h
    unfold spatial_factor
    rw [if_neg (by omega)]

/-- C3 witness: the bound, the 3-measurement formula, the 2-measurement
zero and the below-4-positions neutral spatial factor, all at concrete
inputs. -/
theorem C3_confidence_formula_witness :
    (0 ≤ _calculate_confidence 10 msW ∧ _calculate_confidence 10 msW ≤ 1) ∧
    _calculate_confidence 10 msW =
      max 0 (min 1 ((3/10) * count_factor msW + (3/10) * consistency_factor msW +
        (2/10) * spatial_factor 10 msW + (2/10) * signal_factor msW)) ∧
    _calculate_confidence 10 msTwo = 0 ∧
    spatial_factor 10 msW = 1/2 := by
  refine ⟨(C3_confidence_formula 10 msW).1, ?_, ?_, ?_⟩
  · exact (C3_confidence_formula 10 msW).2.1 (by decide)
  · exact (C3_confidence_formula 10 msTwo).2.2.1 (by decide)
  · exact (C3_confidence_formula 10 msW).2.2.2 (by decide)

/-! ## C6: RSSI-to-distance conversion is monotone and clamped -/

/-- C6: the RSSI-to-distance conversion is monotonically non-increasing in
the signal level, its result always lies in `[0.5, 150]` meters, and it
equals the reference distance whenever the signal is at or above the
reference RSSI. -/
theorem C6_distance_monotone :
    (∀ s1 s2 : ℚ, s1 ≤ s2 →
      _rssi_to_distance_meters s2 ≤ _rssi_to_distance_meters s1) ∧
    (∀ s : ℚ, 1/2 ≤ _rssi_to_distance_meters s ∧ _rssi_to_distance_meters s ≤ 150) ∧
    (∀ s : ℚ, reference_rssi ≤ s → _rssi_to_distance_meters s = reference_distance) := by
  have hone : ∀ s : ℚ, s < reference_rssi →
      (1:ℝ) ≤ _rssi_to_distance_meters s := by
    intro s hs
    unfold _rssi_to_distance_meters
    rw [if_neg (not_le.mpr hs)]
    have hexp : (0:ℝ) ≤ ((reference_rssi - s : ℚ) : ℝ) / (10 * path_loss_exponent) := by
      have : (0:ℚ) ≤ reference_rssi - s := by linarith
      have h1 : (0:ℝ) ≤ ((reference_rssi - s : ℚ) : ℝ) := by exact_mod_cast this
      have h2 : (0:ℝ) < 10 * path_loss_exponent := by norm_num [path_loss_exponent]
      positivity
    have hd : (1:ℝ) ≤ (10 : ℝ) ^ (((reference_rssi - s : ℚ) : ℝ) / (10 * path_loss_exponent)) := by
      calc (1:ℝ) = (10:ℝ) ^ (0:ℝ) := (Real.rpow_zero 10).symm
      _ ≤ _ := (Real.rpow_le_rpow_left_iff (by norm_num)).mpr hexp
    refine le_min (le_trans ?_ (le_max_left _ _)) (by norm_num)
    rw [reference_distance, one_mul]
    exact hd
  have hbounds : ∀ s : ℚ, 1/2 ≤ _rssi_to_distance_meters s ∧
      _rssi_to_distance_meters s ≤ 150 := by
    intro s
    unfold _rssi_to_distance_meters
    split_ifs with h
    · rw [reference_distance]; norm_num
    · exact ⟨le_min (le_max_right _ _) (by norm_num), min_le_right _ _⟩
  have hflat : ∀ s : ℚ, reference_rssi ≤ s →
      _rssi_to_distance_meters s = reference_distance := by
    intro s h
    unfold _rssi_to_distance_meters
    rw [if_pos h]
  refine ⟨?_, hbounds, hflat⟩
  intro s1 s2 h12
  rcases le_or_lt reference_rssi s1 with h1 | h1
  · rw [hflat s1 h1, hflat s2 (le_trans h1 h12), ]
  · rcases le_or_lt reference_rssi s2 with h2 | h2
    · rw [hflat s2 h2]
      show (1:ℝ) ≤ _rssi_to_distance_meters s1
      exact hone s1 h1
    · unfold _rssi_to_distance_meters
      rw [if_neg (not_le.mpr h1), if_neg (not_le.mpr h2)]
      have hm : (10 : ℝ) ^ (((reference_rssi - s2 : ℚ) : ℝ) / (10 * path_loss_exponent)) ≤
          (10 : ℝ) ^ (((reference_rssi - s1 : ℚ) : ℝ) / (10 * path_loss_exponent)) := by
        apply (Real.rpow_le_rpow_left_iff (by norm_num : (1:ℝ) < 10)).mpr
        have hnum : ((reference_rssi - s2 : ℚ) : ℝ) ≤ ((reference_rssi - s1 : ℚ) : ℝ) := by
          have : (reference_rssi - s2 : ℚ) ≤ reference_rssi - s1 := by linarith
          exact_mod_cast this
        have hden : (0:ℝ) < 10 * path_loss_exponent := by norm_num [path_loss_exponent]
        exact div_le_div_of_nonneg_right hnum hden.le
      exact min_le_min (max_le_max (by
        exact mul_le_mul_of_nonneg_left hm (by rw [reference_distance]; norm_num)) (le_refl _)) (le_refl _)

/-- C6 witness: concrete monotonicity instance (−80 ≤ −70 gives
d(−70) ≤ d(−80)), concrete bounds, and the flat region at −30 ≥ −40. -/
theorem C6_distance_monotone_witness :
    _rssi_to_distance_meters (-70) ≤ _rssi_to_distance_meters (-80) ∧
    (1/2 ≤ _rssi_to_distance_meters (-100) ∧ _rssi_to_distance_meters (-100) ≤ 150) ∧
    _rssi_to_distance_meters (-30) = reference_distance := by
  refine ⟨C6_distance_monotone.1 (-80) (-70) (by norm_num), C6_distance_monotone.2.1 (-100), ?_⟩
  exact C6_distance_monotone.2.2 (-30) (by norm_num [reference_rssi])

/-! ## C2: which measurement set the confidence is computed over -/

lemma msA_rssis : (msA.map fun m => m.rssi) = rssisA := rfl

lemma msAKept_rssis : (msAKept.map fun m => m.rssi) = rssisKept := rfl

lemma mean_rssisA : mean rssisA = -57 := by
  norm_num [mean, rssisA, List.sum_cons, List.sum_nil]

lemma mean_rssisKept : mean rssisKept = -50 := by
  norm_num [mean, rssisKept, List.sum_cons, List.sum_nil]

lemma variance_rssisA : variance rssisA = 441 := by
  unfold variance
  rw [mean_rssisA]
  norm_num [rssisA, List.sum_cons, List.sum_nil]

lemma variance_rssisKept : variance rssisKept = 0 := by
  unfold variance
  rw [mean_rssisKept]
  norm_num [rssisKept, List.sum_cons, List.sum_nil]

lemma std_rssisA : std rssisA = 21 := by
  unfold std
  rw [variance_rssisA]
  rw [show ((441 : ℚ) : ℝ) = (21 : ℝ) ^ 2 by norm_num]
  exact Real.sqrt_sq (by norm_num)

lemma std_rssisKept : std rssisKept = 0 := by
  unfold std
  rw [variance_rssisKept]
  rw [show ((0 : ℚ) : ℝ) = (0 : ℝ) by norm_num]
  exact Real.sqrt_zero

lemma filterMeasurements_msA : filterMeasurements msA = msAKept := by
  simp only [filterMeasurements, msA_rssis, mean_rssisA, std_rssisA]
  rw [if_pos (by norm_num : (15:ℝ) < 21)]
  have hfil : (msA.filter fun m =>
      |((m.rssi : ℝ)) - ((-57 : ℚ) : ℝ)| ≤ 2 * (21:ℝ)) = msAKept := by
    simp only [msA, msAKept, List.filter_cons, List.filter_nil, decide_eq_true_eq]
    norm_num [abs_le]
  rw [hfil]
  rw [if_pos (by decide : 3 ≤ msAKept.length)]

lemma count_factor_msA : count_factor msA = 1 := by
  norm_num [count_factor, msA, min_def]

lemma count_factor_msAKept : count_factor msAKept = 1 := by
  norm_num [count_factor, msAKept, min_def]

lemma consistency_factor_msA : consistency_factor msA = 4/25 := by
  unfold consistency_factor
  rw [msA_rssis, std_rssisA]
  norm_num [max_def]

lemma consistency_factor_msAKept : consistency_factor msAKept = 1 := by
  unfold consistency_factor
  rw [msAKept_rssis, std_rssisKept]
  norm_num [max_def]

lemma spatial_factor_msA : spatial_factor 10 msA = 9/20 := by
  unfold spatial_factor
  rw [if_pos (by decide : 4 ≤ msA.length)]
  norm_num [msA, listMax, listMin, List.foldl_cons, List.foldl_nil, max_def, min_def]

lemma spatial_factor_msAKept : spatial_factor 10 msAKept = 2/5 := by
  unfold spatial_factor
  rw [if_pos (by decide : 4 ≤ msAKept.length)]
  norm_num [msAKept, listMax, listMin, List.foldl_cons, List.foldl_nil, max_def, min_def]

lemma signal_factor_msA : signal_factor msA = 1 := by
  unfold signal_factor
  rw [msA_rssis, mean_rssisA]
  norm_num [max_def, min_def]

lemma signal_factor_msAKept : signal_factor msAKept = 1 := by
  unfold signal_factor
  rw [msAKept_rssis, mean_rssisKept]
  norm_num [max_def, min_def]

lemma confidence_msA : _calculate_confidence 10 msA = 319/500 := by
  unfold _calculate_confidence
  rw [if_neg (by decide : ¬msA.length < 3)]
  rw [count_factor_msA, consistency_factor_msA, spatial_factor_msA, signal_factor_msA]
  norm_num [max_def, min_def]

lemma confidence_msAKept : _calculate_confidence 10 msAKept = 22/25 := by
  unfold _calculate_confidence
  rw [if_neg (by decide : ¬msAKept.length < 3)]
  rw [count_factor_msAKept, consistency_factor_msAKept, spatial_factor_msAKept,
    signal_factor_msAKept]
  norm_num [max_def, min_def]

lemma gather_ptsA : gatherMeasurements ptsA "aa" = msA := by rfl

lemma estimate_all_aps_ptsA : estimate_all_aps solveA 10 ptsA "aa" = some apA := by
  simp only [estimate_all_aps, gather_ptsA]
  rw [if_neg (by simp [ptsA]), if_neg (by simp [msA]), if_neg (by decide : ¬msA.length < 3)]
  have hsolve : estimate_ap_position (solveA "aa") msA = .ok (some (0, 0)) := by
    simp only [estimate_ap_position, solveA]
    rw [if_neg (by decide : ¬msA.length < 3)]
  rw [hsolve]
  rw [confidence_msA, msA_rssis, mean_rssisA]
  simp only [apA, Option.some.injEq, APLocator.APPosition.mk.injEq]
  norm_num
  exact ⟨by rfl, by rfl⟩

/-- C2 counterexample to the claim as stated: for `ptsA` the outlier filter
fires (stddev 21 > 15, nine of ten measurements survive), yet the emitted
confidence is 319/500 — the scorer applied to the ORIGINAL ten
measurements — while the scorer over the filtered set gives 22/25. -/
theorem C2_confidence_over_filtered_counterexample :
    (estimate_all_aps solveA 10 ptsA "aa").map APLocator.APPosition.confidence =
      some ((319 : ℝ)/500) ∧
    _calculate_confidence 10 (filterMeasurements (gatherMeasurements ptsA "aa")) = 22/25 ∧
    ((319 : ℝ)/500) ≠ 22/25 := by
  refine ⟨?_, ?_, by norm_num⟩
  · rw [estimate_all_aps_ptsA]
    rfl
  · rw [gather_ptsA, filterMeasurements_msA]
    exact confidence_msAKept

/-- C2 (amended): the confidence attached to an emitted estimate is always
computed by the confidence scorer over the ORIGINAL unfiltered measurement
set of that emitter; the outlier filtering inside `estimate_ap_position`
affects only the position solve. -/
theorem C2_confidence_over_unfiltered
    (solve : String → List Meas → Except Unit (Option (ℝ × ℝ)))
    (ppm : ℚ) (pts : List SurveyPoint) (b : String) (ap : APLocator.APPosition)
    (h : estimate_all_aps solve ppm pts b = some ap) :
    ap.confidence = _calculate_confidence ppm (gatherMeasurements pts b) := by
  simp only [estimate_all_aps] at h
  split_ifs at h with h1 h2 h3
  rcases hE : estimate_ap_position (solve b) (gatherMeasurements pts b) with e | o
  · rw [hE] at h
    exact absurd h (by simp)
  · rw [hE] at h
    cases o with
    | none => exact absurd h (by simp)
    | some xy =>
      obtain ⟨x, y⟩ := xy
      obtain rfl := Option.some_injective _ h
      rfl

/-- C2 witness for the amended claim at a concrete input: the confidence of
the estimate emitted for `ptsA` equals the scorer over the unfiltered
gathered measurements. -/
theorem C2_confidence_over_unfiltered_witness :
    apA.confidence = _calculate_confidence 10 (gatherMeasurements ptsA "aa") :=
  C2_confidence_over_unfiltered solveA 10 ptsA "aa" apA estimate_all_aps_ptsA

end SiteSurveyor
